import Mathlib

/-!
A verification development for the openstack-autoscaler repository.

The Go sources (pkg/provider/provider.go, the node-group code, and
pkg/grpc/grpc_server.go) are shallowly embedded below.  Pure functions
become Lean functions; stateful code threads an explicit `World`
(the backend compute/image state together with instrumentation
counters recording which backend calls were issued).  Go's untyped
`fmt.Errorf` failures are embedded as the error taxonomy the spec
names (`Err`); the gRPC adapter maps them to protocol codes
(`GrpcCode`) exactly as grpc_server.go does.  Machine integers are
embedded as `Int`/`Nat` (no overflow is reachable in these claims),
Go maps `map[string]string` as association lists with first-match
lookup and in-place update, and the creation timestamp used in server
names as a per-world creation counter (only "name begins with the
group id" is ever relied upon).
-/

namespace OSAutoscaler

/-- Go `strings.HasPrefix` on rune lists: `goStartsWith p s` means `p` is a prefix of `s`. -/
def goStartsWith : List Char → List Char → Bool
  | [], _ => true
  | _ :: _, [] => false
  | a :: as, b :: bs => a == b && goStartsWith as bs

/-- Go `strings.Contains(hay, needle)`: does `needle` occur inside `hay`?  `hasSub n h`
checks `n` against every suffix of `h`. -/
def hasSub (n : List Char) : List Char → Bool
  | [] => goStartsWith n []
  | c :: t => goStartsWith n (c :: t) || hasSub n t

/-- Go `strings.Contains(hay, needle)`. -/
def goContains (hay needle : String) : Bool :=
  hasSub needle.toList hay.toList

/-- Go `strings.TrimPrefix(s, p)`: drops `p` from the front of `s` when present,
returns `s` unchanged otherwise. -/
def goTrimStart (s p : String) : String :=
  if goStartsWith p.toList s.toList then String.mk (s.toList.drop p.toList.length) else s

/-- First-match lookup in an association list (a Go `map[string]string` read). -/
def mapGet (m : List (String × String)) (k : String) : Option String :=
  match m with
  | [] => none
  | (k', v) :: rest => if k' == k then some v else mapGet rest k

/-- In-place update of an association list (a Go `m[k] = v` write). -/
def mapSet (m : List (String × String)) (k v : String) : List (String × String) :=
  match m with
  | [] => [(k, v)]
  | (k', v') :: rest => if k' == k then (k, v) :: rest else (k', v') :: mapSet rest k v

/-- The spec's domain-error taxonomy; Go's wrapped `fmt.Errorf` failures are
embedded by their semantic category. -/
inductive Err where
  | invalidArgument
  | notFound
  | capacityExceeded
  | backendUnavailable
  | configurationInvalid
  deriving DecidableEq, Repr

/-- Protocol (gRPC) status codes produced by grpc_server.go. -/
inductive GrpcCode where
  | invalidArgument
  | notFound
  | internal
  | unimplemented
  deriving DecidableEq, Repr

/-- An OpenStack compute instance as the autoscaler observes it
(gophercloud `servers.Server`: id, name, status, metadata). -/
structure Server where
  id : String
  name : String
  status : String
  metadata : List (String × String)
  deriving DecidableEq, Repr

/-- A compute flavor (machine type): gophercloud `flavors.Flavor`. -/
structure Flavor where
  id : String
  name : String
  vcpus : Nat
  ram : Nat
  deriving DecidableEq, Repr

/-- A boot image in the image catalog. -/
structure OSImage where
  id : String
  name : String
  deriving DecidableEq, Repr

/-- config.NodeGroupConfig (the fields the embedded operations read). -/
structure NGConfig where
  id : String
  minSize : Int
  maxSize : Int
  flavorName : String
  imageName : String
  imageID : String
  keyName : String
  userData : String
  metadata : List (String × String)
  labels : List (String × String)
  deriving DecidableEq, Repr

/-- `ProviderName = "openstack"` from provider.go. -/
def ProviderName : String := "openstack"

/-- The backend state visible to the autoscaler, plus instrumentation:
which creation/deletion/lookup calls were issued.  Boolean flags and the
`createOk`/`deleteOk` oracles model whether the corresponding backend
call succeeds. -/
structure World where
  servers : List Server
  listOk : Bool
  getOk : Bool
  createOk : Nat → Bool
  createCount : Nat
  deleteOk : String → Bool
  deleteCalls : List String
  flavors : List Flavor
  flavorListOk : Bool
  flavorLookups : Nat
  images : List OSImage
  imageListOk : Bool
  now : Nat

/-- External passage of time between requests. -/
def setNow (w : World) (t : Nat) : World := { w with now := t }

/-- OpenStackNodeGroup.ContainsNode: prefer the `nodegroup` metadata tag,
fall back to a substring match of the group id against the server name. -/
def containsNode (ngId : String) (s : Server) : Bool :=
  match mapGet s.metadata "nodegroup" with
  | some nodeGroupID => nodeGroupID == ngId
  | none => goContains s.name ngId

/-- OpenStackNodeGroup.getInstances: list all servers (fallible), keep those
this group contains. -/
def getInstances (cfg : NGConfig) (w : World) : Except Err (List Server) :=
  if w.listOk then .ok (w.servers.filter (fun s => containsNode cfg.id s))
  else .error .backendUnavailable

/-- Status counted by TargetSize: ACTIVE (running) or BUILD (provisioning). -/
def isActiveOrBuild (s : Server) : Bool :=
  s.status == "ACTIVE" || s.status == "BUILD"

/-- OpenStackNodeGroup.TargetSize: count ACTIVE/BUILD instances of the group. -/
def targetSize (cfg : NGConfig) (w : World) : Except Err Nat :=
  match getInstances cfg w with
  | .error e => .error e
  | .ok instances => .ok (instances.countP isActiveOrBuild)

/-- OpenStackNodeGroup.getImageID: a configured explicit id wins; otherwise
search the image catalog by name and take the first match. -/
def getImageID (cfg : NGConfig) (w : World) : Except Err String :=
  if cfg.imageID ≠ "" then .ok cfg.imageID
  else if w.imageListOk then
    match (w.images.filter (fun i => i.name == cfg.imageName)) with
    | [] => .error .notFound
    | i :: _ => .ok i.id
  else .error .backendUnavailable

/-- OpenStackNodeGroup.getFlavor: direct get (by id), falling back to a full
catalog scan by exact name. -/
def getFlavor (cfg : NGConfig) (w : World) : Except Err Flavor :=
  match w.flavors.find? (fun f => f.id == cfg.flavorName) with
  | some f => .ok f
  | none =>
    if w.flavorListOk then
      match w.flavors.find? (fun f => f.name == cfg.flavorName) with
      | some f => .ok f
      | none => .error .notFound
    else .error .backendUnavailable

/-- Each getFlavor invocation is one machine-type lookup; the instrumentation
counter records it (issued whether or not the lookup succeeds). -/
def bumpFlavorLookups (w : World) : World :=
  { w with flavorLookups := w.flavorLookups + 1 }

/-- The server record a successful create call materialises for the `k`-th
creation (createServer's metadata map: config metadata, then `nodegroup`,
`created_by`, and, when a key pair is configured, `key_name`; server name
`<group-id>-<timestamp>` with the timestamp embedded as the counter;
fresh servers surface as BUILD). -/
def mkServer (cfg : NGConfig) (k : Nat) : Server :=
  let md := mapSet (mapSet cfg.metadata "nodegroup" cfg.id) "created_by" "openstack-autoscaler"
  let md := if cfg.keyName ≠ "" then mapSet md "key_name" cfg.keyName else md
  { id := "srv-" ++ toString k
    name := cfg.id ++ "-" ++ toString k
    status := "BUILD"
    metadata := md }

/-- OpenStackNodeGroup.createServer: resolve image and flavor, then issue one
backend create call (counted even when it fails). -/
def createServer (cfg : NGConfig) (w : World) : Except Err Unit × World :=
  match getImageID cfg w with
  | .error e => (.error e, w)
  | .ok _ =>
    match getFlavor cfg w with
    | .error e => (.error e, bumpFlavorLookups w)
    | .ok _ =>
      let w1 := bumpFlavorLookups w
      let w2 := { w1 with createCount := w1.createCount + 1 }
      if w1.createOk w1.createCount then
        (.ok (), { w2 with servers := w2.servers ++ [mkServer cfg w1.createCount] })
      else
        (.error .backendUnavailable, w2)

/-- The sequential creation loop inside IncreaseSize: stop at the first
failing creation. -/
def createLoop (cfg : NGConfig) : Nat → World → Except Err Unit × World
  | 0, w => (.ok (), w)
  | n + 1, w =>
    match createServer cfg w with
    | (.ok _, w') => createLoop cfg n w'
    | (.error e, w') => (.error e, w')

/-- OpenStackNodeGroup.IncreaseSize: reject non-positive delta, recompute the
target size, reject when `current + delta` exceeds maxSize, else create
`delta` servers sequentially. -/
def increaseSize (cfg : NGConfig) (delta : Int) (w : World) : Except Err Unit × World :=
  if delta ≤ 0 then (.error .invalidArgument, w)
  else
    match targetSize cfg w with
    | .error _ => (.error .backendUnavailable, w)
    | .ok currentSize =>
      if (currentSize : Int) + delta > cfg.maxSize then (.error .capacityExceeded, w)
      else createLoop cfg delta.toNat w

/-- OpenStackNodeGroup.DecreaseTargetSize: reject non-negative delta, reject
when `current + delta` falls under minSize; otherwise a no-op (the code
deliberately deletes nothing here). -/
def decreaseTargetSize (cfg : NGConfig) (delta : Int) (w : World) : Except Err Unit × World :=
  if 0 ≤ delta then (.error .invalidArgument, w)
  else
    match targetSize cfg w with
    | .error _ => (.error .backendUnavailable, w)
    | .ok currentSize =>
      if (currentSize : Int) + delta < cfg.minSize then (.error .capacityExceeded, w)
      else (.ok (), w)

/-- A node reference handed to DeleteNodes (name and provider-qualified id). -/
structure NodeRef where
  name : String
  providerID : String
  deriving DecidableEq, Repr

/-- OpenStackNodeGroup.deleteNode: strip the `openstack://` prefix (failing
with an invalid-format error when it is absent), then issue one backend
delete call (recorded even when it fails; on success the server disappears). -/
def deleteNode (w : World) (n : NodeRef) : Except Err Unit × World :=
  let providerID := n.providerID
  let serverID := goTrimStart providerID (ProviderName ++ "://")
  if serverID == providerID then (.error .invalidArgument, w)
  else
    let w1 := { w with deleteCalls := w.deleteCalls ++ [serverID] }
    if w.deleteOk serverID then
      (.ok (), { w1 with servers := w1.servers.filter (fun s => !(s.id == serverID)) })
    else (.error .backendUnavailable, w1)

/-- OpenStackNodeGroup.DeleteNodes: delete each node in order, stopping at the
first failure (the empty list returns immediately with success). -/
def deleteNodes (w : World) : List NodeRef → Except Err Unit × World
  | [] => (.ok (), w)
  | n :: rest =>
    match deleteNode w n with
    | (.ok _, w') => deleteNodes w' rest
    | (.error e, w') => (.error e, w')

/-- The synthetic template node built for scheduling simulation (name,
labels, CPU/memory capacity, provider id).  The code sets Allocatable to the
same quantities as Capacity, so one pair of fields embeds both. -/
structure NodeInfo where
  name : String
  labels : List (String × String)
  cpu : Nat
  memBytes : Nat
  providerID : String
  deriving DecidableEq, Repr

/-- OpenStackNodeGroup.buildTemplateNodeInfo's node, given the resolved
flavor: fixed arch/os labels, the flavor name as instance type, then the
group's configured custom labels written over them. -/
def buildNode (cfg : NGConfig) (f : Flavor) : NodeInfo :=
  let base := [("kubernetes.io/arch", "amd64"), ("kubernetes.io/os", "linux"),
               ("node.kubernetes.io/instance-type", f.name)]
  { name := cfg.id ++ "-template"
    labels := cfg.labels.foldl (fun m kv => mapSet m kv.1 kv.2) base
    cpu := f.vcpus
    memBytes := f.ram * 1024 * 1024
    providerID := ProviderName ++ "://template-" ++ cfg.id }

/-- The mutable per-group cache (template node info plus the time it was
last populated; `lastRefresh = 0` is the Go zero time). -/
structure NGState where
  template : Option NodeInfo
  lastRefresh : Nat
  deriving DecidableEq, Repr

/-- Cache-freshness window: 10 minutes, in seconds. -/
def freshnessWindow : Nat := 600

/-- OpenStackNodeGroup.TemplateNodeInfo: serve the cached template while it
is younger than the freshness window; otherwise resolve the flavor, build a
fresh template, cache it with the current time.  Go's DeepCopy on the
returned node embeds as the identity on these immutable values. -/
def templateNodeInfo (cfg : NGConfig) (st : NGState) (w : World) :
    Except Err NodeInfo × NGState × World :=
  match st.template with
  | some cached =>
    if w.now - st.lastRefresh < freshnessWindow then (.ok cached, st, w)
    else templateMiss cfg st w
  | none => templateMiss cfg st w
where
  templateMiss (cfg : NGConfig) (st : NGState) (w : World) :
      Except Err NodeInfo × NGState × World :=
    let w1 := bumpFlavorLookups w
    match getFlavor cfg w with
    | .error e => (.error e, st, w1)
    | .ok f =>
      let node := buildNode cfg f
      (.ok node, { template := some node, lastRefresh := w1.now }, w1)

/-- OpenStackNodeGroup.Refresh: drop the cached template and zero the
timestamp; instance state is untouched. -/
def refreshNG : NGState := { template := none, lastRefresh := 0 }

/-- NewOpenStackNodeGroup's validateConfig. -/
def validateConfig (cfg : NGConfig) : Bool :=
  cfg.id ≠ "" && 0 ≤ cfg.minSize && cfg.minSize ≤ cfg.maxSize &&
    cfg.flavorName ≠ "" && (cfg.imageName ≠ "" || cfg.imageID ≠ "")

/-- The Provider's group directory, in insertion order. -/
abbrev Directory := List NGConfig

/-- OpenStackProvider.AddNodeGroup: return the existing group when the id is
already present; otherwise validate the configuration and append the new
group. -/
def addNodeGroup (p : Directory) (cfg : NGConfig) : Except Err NGConfig × Directory :=
  match List.find? (fun c => c.id == cfg.id) p with
  | some existing => (.ok existing, p)
  | none =>
    if validateConfig cfg then (.ok cfg, p ++ [cfg])
    else (.error .configurationInvalid, p)

/-- OpenStackProvider.GetNodeGroup. -/
def getNodeGroup (p : Directory) (id : String) : Option NGConfig :=
  List.find? (fun c => c.id == id) p

/-- gophercloud servers.Get by backend id. -/
def serverGet (w : World) (sid : String) : Except Err Server :=
  if w.getOk then
    match w.servers.find? (fun s => s.id == sid) with
    | some s => .ok s
    | none => .error .backendUnavailable
  else .error .backendUnavailable

/-- OpenStackProvider.NodeGroupForNode: strip the provider prefix (invalid
format otherwise), fetch the server, return the first group containing it
(or none when no group claims it). -/
def providerNodeGroupForNode (p : Directory) (w : World) (nodeProviderID : String) :
    Except Err (Option NGConfig) :=
  let serverID := goTrimStart nodeProviderID (ProviderName ++ "://")
  if serverID == nodeProviderID then .error .invalidArgument
  else
    match serverGet w serverID with
    | .error e => .error e
    | .ok server => .ok (List.find? (fun ng => containsNode ng.id server) p)

/-- grpc NodeGroupTargetSize: NotFound for an unknown group, Internal when
the domain call fails. -/
def grpcTargetSize (p : Directory) (w : World) (id : String) : Except GrpcCode Nat :=
  match getNodeGroup p id with
  | none => .error .notFound
  | some ng =>
    match targetSize ng w with
    | .error _ => .error .internal
    | .ok size => .ok size

/-- grpc NodeGroupIncreaseSize. -/
def grpcIncreaseSize (p : Directory) (w : World) (id : String) (delta : Int) :
    Except GrpcCode Unit × World :=
  match getNodeGroup p id with
  | none => (.error .notFound, w)
  | some ng =>
    match increaseSize ng delta w with
    | (.ok _, w') => (.ok (), w')
    | (.error _, w') => (.error .internal, w')

/-- grpc NodeGroupDecreaseTargetSize. -/
def grpcDecreaseTargetSize (p : Directory) (w : World) (id : String) (delta : Int) :
    Except GrpcCode Unit × World :=
  match getNodeGroup p id with
  | none => (.error .notFound, w)
  | some ng =>
    match decreaseTargetSize ng delta w with
    | (.ok _, w') => (.ok (), w')
    | (.error _, w') => (.error .internal, w')

/-- grpc NodeGroupDeleteNodes. -/
def grpcDeleteNodes (p : Directory) (w : World) (id : String) (nodes : List NodeRef) :
    Except GrpcCode Unit × World :=
  match getNodeGroup p id with
  | none => (.error .notFound, w)
  | some _ =>
    match deleteNodes w nodes with
    | (.ok _, w') => (.ok (), w')
    | (.error _, w') => (.error .internal, w')

/-- grpc NodeGroupForNode: a missing node is InvalidArgument; a provider
failure or a no-owner result both answer with the empty node group (the
response that means "not managed"), encoded as `none`; an owning group
answers with its id. -/
def grpcNodeGroupForNode (p : Directory) (w : World) (reqNode : Option NodeRef) :
    Except GrpcCode (Option String) :=
  match reqNode with
  | none => .error .invalidArgument
  | some node =>
    match providerNodeGroupForNode p w node.providerID with
    | .error _ => .ok none
    | .ok none => .ok none
    | .ok (some ng) => .ok (some ng.id)

/-- A scale operation applied to one group (for operation-sequence claims). -/
inductive Op where
  | inc (delta : Int)
  | dec (delta : Int)
  deriving DecidableEq, Repr

/-- Apply one scale operation. -/
def runOp (cfg : NGConfig) (w : World) : Op → Except Err Unit × World
  | .inc d => increaseSize cfg d w
  | .dec d => decreaseTargetSize cfg d w

/-- Apply a sequence of scale operations, stopping at the first failure. -/
def runOps (cfg : NGConfig) (w : World) : List Op → Except Err Unit × World
  | [] => (.ok (), w)
  | op :: rest =>
    match runOp cfg w op with
    | (.ok _, w') => runOps cfg w' rest
    | (.error e, w') => (.error e, w')

/-- The servers a run of `n` successful creations appends, starting at
creation counter `c`. -/
def newServers (cfg : NGConfig) (c : Nat) : Nat → List Server
  | 0 => []
  | n + 1 => mkServer cfg c :: newServers cfg (c + 1) n

/-- The world after `n` successful creations: `n` flavor lookups, `n` create
calls, `n` new servers. -/
def advance (cfg : NGConfig) (n : Nat) (w : World) : World :=
  { w with flavorLookups := w.flavorLookups + n,
           createCount := w.createCount + n,
           servers := w.servers ++ newServers cfg w.createCount n }

/-- The world after one more create call that the backend rejected: the
lookup and the call are recorded, no server appears. -/
def failedCreate (w : World) : World :=
  { w with flavorLookups := w.flavorLookups + 1, createCount := w.createCount + 1 }

/-! ### Concrete instances used by witnesses and counterexamples -/

/-- A well-formed node group: min 1, max 5, resolvable flavor and image. -/
def cfgW : NGConfig :=
  { id := "g1", minSize := 1, maxSize := 5, flavorName := "f1",
    imageName := "", imageID := "img-1", keyName := "", userData := "",
    metadata := [("x", "y")], labels := [("a", "b")] }

/-- The same group with bounds min 4, max 5. -/
def cfgLow : NGConfig :=
  { cfgW with minSize := 4, maxSize := 5 }

/-- The same group with bounds min 1, max 2. -/
def cfgNarrow : NGConfig :=
  { cfgW with minSize := 1, maxSize := 2 }

/-- The flavor the healthy backend serves. -/
def fW : Flavor := { id := "f1", name := "small", vcpus := 2, ram := 4096 }

/-- A healthy empty backend: no servers, every call succeeds, one flavor. -/
def wW : World :=
  { servers := [], listOk := true, getOk := true,
    createOk := fun _ => true, createCount := 0,
    deleteOk := fun _ => true, deleteCalls := [],
    flavors := [fW],
    flavorListOk := true, flavorLookups := 0,
    images := [], imageListOk := true, now := 1000 }

/-- The healthy backend already holding five ACTIVE servers tagged `g1`. -/
def wBig : World :=
  { wW with servers :=
      [ { id := "s1", name := "g1-a", status := "ACTIVE", metadata := [("nodegroup", "g1")] },
        { id := "s2", name := "g1-b", status := "ACTIVE", metadata := [("nodegroup", "g1")] },
        { id := "s3", name := "g1-c", status := "ACTIVE", metadata := [("nodegroup", "g1")] },
        { id := "s4", name := "g1-d", status := "ACTIVE", metadata := [("nodegroup", "g1")] },
        { id := "s5", name := "g1-e", status := "ACTIVE", metadata := [("nodegroup", "g1")] } ] }

/-- The healthy backend holding one server with backend id `s1`. -/
def wOne : World :=
  { wW with servers :=
      [ { id := "s1", name := "g1-a", status := "ACTIVE", metadata := [("nodegroup", "g1")] } ] }

/-- A node reference with a well-formed provider-qualified id. -/
def goodRef : NodeRef := { name := "node-1", providerID := "openstack://s1" }

/-- A node reference whose id lacks the `openstack://` prefix. -/
def badRef : NodeRef := { name := "node-2", providerID := "malformed-id" }

/-- The scenario servers of the attribution claim. -/
def srvTagged : Server :=
  { id := "i1", name := "random-42", status := "ACTIVE", metadata := [("nodegroup", "g1")] }

def srvNamed : Server :=
  { id := "i2", name := "g1-worker-07", status := "ACTIVE", metadata := [] }

def srvOther : Server :=
  { id := "i3", name := "other-3", status := "ACTIVE", metadata := [] }

/-- The directory invariant AddNodeGroup maintains: at most one entry per id. -/
def dirUnique (p : Directory) : Prop :=
  ∀ i : String, p.countP (fun c => c.id == i) ≤ 1

/-! ### Association-list and string helper lemmas -/

theorem mapGet_mapSet_self (m : List (String × String)) (k v : String) :
    mapGet (mapSet m k v) k = some v := by
  induction m with
  | nil => simp [mapGet, mapSet]
  | cons hd tl ih =>
    obtain ⟨k', v'⟩ := hd
    by_cases h : (k' == k) = true
    · simp [mapGet, mapSet, h]
    · simp only [Bool.not_eq_true] at h
      simp [mapGet, mapSet, h, ih]

theorem mapGet_mapSet_ne (m : List (String × String)) (k k' v : String)
    (h : (k' == k) = false) : mapGet (mapSet m k' v) k = mapGet m k := by
  induction m with
  | nil => simp [mapGet, mapSet, h]
  | cons hd tl ih =>
    obtain ⟨k₀, v₀⟩ := hd
    by_cases h₀ : (k₀ == k') = true
    · have hk : (k₀ == k) = false := by
        have := eq_of_beq h₀
        subst this
        exact h
      simp [mapGet, mapSet, h₀, h, hk]
    · simp only [Bool.not_eq_true] at h₀
      by_cases h₁ : (k₀ == k) = true
      · simp [mapGet, mapSet, h₀, h₁]
      · simp only [Bool.not_eq_true] at h₁
        simp [mapGet, mapSet, h₀, h₁, ih]

theorem goStartsWith_append (l r : List Char) : goStartsWith l (l ++ r) = true := by
  induction l with
  | nil => simp [goStartsWith]
  | cons c t ih => simp [goStartsWith, ih]

/-! ### Facts about created servers -/

theorem mkServer_nodegroup (cfg : NGConfig) (k : Nat) :
    mapGet (mkServer cfg k).metadata "nodegroup" = some cfg.id := by
  show mapGet
      (if cfg.keyName ≠ "" then
        mapSet (mapSet (mapSet cfg.metadata "nodegroup" cfg.id) "created_by"
          "openstack-autoscaler") "key_name" cfg.keyName
      else mapSet (mapSet cfg.metadata "nodegroup" cfg.id) "created_by"
        "openstack-autoscaler") "nodegroup" = some cfg.id
  by_cases h : cfg.keyName ≠ ""
  · rw [if_pos h]
    rw [mapGet_mapSet_ne _ _ _ _ (by decide), mapGet_mapSet_ne _ _ _ _ (by decide),
      mapGet_mapSet_self]
  · rw [if_neg h]
    rw [mapGet_mapSet_ne _ _ _ _ (by decide), mapGet_mapSet_self]

theorem containsNode_mkServer (cfg : NGConfig) (k : Nat) :
    containsNode cfg.id (mkServer cfg k) = true := by
  unfold containsNode
  rw [mkServer_nodegroup]
  simp

theorem isActiveOrBuild_mkServer (cfg : NGConfig) (k : Nat) :
    isActiveOrBuild (mkServer cfg k) = true := by
  simp [isActiveOrBuild, mkServer]

theorem mkServer_name_startsWith (cfg : NGConfig) (k : Nat) :
    goStartsWith cfg.id.toList (mkServer cfg k).name.toList = true := by
  show goStartsWith cfg.id.toList (cfg.id ++ "-" ++ toString k).toList = true
  show goStartsWith cfg.id.data (cfg.id ++ "-" ++ toString k).data = true
  rw [String.data_append, String.data_append, List.append_assoc]
  exact goStartsWith_append _ _

theorem mem_newServers (cfg : NGConfig) :
    ∀ (n c : Nat) (s : Server), s ∈ newServers cfg c n → ∃ k, s = mkServer cfg k := by
  intro n
  induction n with
  | zero => intro c s hs; simp [newServers] at hs
  | succ m ih =>
    intro c s hs
    simp only [newServers, List.mem_cons] at hs
    rcases hs with h | h
    · exact ⟨c, h⟩
    · exact ih (c + 1) s h

theorem length_newServers (cfg : NGConfig) :
    ∀ (n c : Nat), (newServers cfg c n).length = n := by
  intro n
  induction n with
  | zero => intro c; simp [newServers]
  | succ m ih => intro c; simp [newServers, ih]

theorem newServers_add (cfg : NGConfig) :
    ∀ (m n c : Nat),
      newServers cfg c (m + n) = newServers cfg c m ++ newServers cfg (c + m) n := by
  intro m
  induction m with
  | zero => intro n c; simp [newServers]
  | succ m' ih =>
    intro n c
    have h1 : m' + 1 + n = (m' + n) + 1 := by omega
    rw [h1]
    show mkServer cfg c :: newServers cfg (c + 1) (m' + n) = _
    rw [ih]
    have h2 : c + 1 + m' = c + (m' + 1) := by omega
    rw [h2]
    rfl

/-! ### createServer / createLoop behaviour -/

theorem advance_zero (cfg : NGConfig) (w : World) : advance cfg 0 w = w := by
  cases w
  simp [advance, newServers]

theorem advance_advance (cfg : NGConfig) (m n : Nat) (w : World) :
    advance cfg n (advance cfg m w) = advance cfg (m + n) w := by
  cases w
  simp only [advance, newServers_add, List.append_assoc]
  congr 1 <;> omega

theorem createServer_ok (cfg : NGConfig) (w : World) (img : String) (f : Flavor)
    (himg : getImageID cfg w = .ok img) (hf : getFlavor cfg w = .ok f)
    (hok : w.createOk w.createCount = true) :
    createServer cfg w = (.ok (), advance cfg 1 w) := by
  unfold createServer
  rw [himg, hf]
  show (if w.createOk w.createCount then _ else _) = _
  rw [if_pos hok]
  cases w
  simp [advance, newServers, bumpFlavorLookups]

theorem createServer_fail (cfg : NGConfig) (w : World) (img : String) (f : Flavor)
    (himg : getImageID cfg w = .ok img) (hf : getFlavor cfg w = .ok f)
    (hbad : w.createOk w.createCount = false) :
    createServer cfg w = (.error .backendUnavailable, failedCreate w) := by
  unfold createServer
  rw [himg, hf]
  show (if w.createOk w.createCount then _ else _) = _
  rw [if_neg (by simp [hbad])]
  rfl

theorem failedCreate_advance (cfg : NGConfig) (j : Nat) (w : World) :
    failedCreate (advance cfg j w) =
      { w with flavorLookups := w.flavorLookups + (j + 1),
               createCount := w.createCount + (j + 1),
               servers := w.servers ++ newServers cfg w.createCount j } := by
  cases w
  simp only [failedCreate, advance]
  congr 1

theorem createServer_imgErr (cfg : NGConfig) (w : World) (e : Err)
    (himg : getImageID cfg w = .error e) : createServer cfg w = (.error e, w) := by
  unfold createServer
  rw [himg]

theorem createServer_flavErr (cfg : NGConfig) (w : World) (img : String) (e : Err)
    (himg : getImageID cfg w = .ok img) (hf : getFlavor cfg w = .error e) :
    createServer cfg w = (.error e, bumpFlavorLookups w) := by
  unfold createServer
  rw [himg, hf]

theorem createServer_ok_inv (cfg : NGConfig) (w w' : World) (u : Unit)
    (h : createServer cfg w = (.ok u, w')) : w' = advance cfg 1 w := by
  cases himg : getImageID cfg w with
  | error e => rw [createServer_imgErr cfg w e himg] at h; simp at h
  | ok img =>
    cases hf : getFlavor cfg w with
    | error e => rw [createServer_flavErr cfg w img e himg hf] at h; simp at h
    | ok f =>
      by_cases hok : w.createOk w.createCount = true
      · rw [createServer_ok cfg w img f himg hf hok] at h
        exact ((Prod.mk.injEq _ _ _ _).mp h).2.symm
      · simp only [Bool.not_eq_true] at hok
        rw [createServer_fail cfg w img f himg hf hok] at h
        simp at h

theorem createLoop_ok (cfg : NGConfig) (img : String) (f : Flavor) :
    ∀ (n : Nat) (w : World), getImageID cfg w = .ok img → getFlavor cfg w = .ok f →
    (∀ k, k < n → w.createOk (w.createCount + k) = true) →
    createLoop cfg n w = (.ok (), advance cfg n w) := by
  intro n
  induction n with
  | zero => intro w _ _ _; rw [advance_zero]; rfl
  | succ m ih =>
    intro w himg hf hok
    have h1 : createServer cfg w = (.ok (), advance cfg 1 w) :=
      createServer_ok cfg w img f himg hf (by simpa using hok 0 (by omega))
    show (match createServer cfg w with
      | (.ok _, w') => createLoop cfg m w'
      | (.error e, w') => (.error e, w')) = _
    rw [h1]
    have h2 : createLoop cfg m (advance cfg 1 w) = (.ok (), advance cfg m (advance cfg 1 w)) := by
      apply ih
      · exact himg
      · exact hf
      · intro k hk
        show w.createOk (w.createCount + 1 + k) = true
        have := hok (k + 1) (by omega)
        convert this using 2
        omega
    show createLoop cfg m (advance cfg 1 w) = _
    rw [h2, advance_advance, Nat.add_comm 1 m]

theorem createLoop_fail (cfg : NGConfig) (img : String) (f : Flavor) :
    ∀ (j n : Nat) (w : World), j < n →
    getImageID cfg w = .ok img → getFlavor cfg w = .ok f →
    (∀ k, k < j → w.createOk (w.createCount + k) = true) →
    w.createOk (w.createCount + j) = false →
    createLoop cfg n w = (.error .backendUnavailable, failedCreate (advance cfg j w)) := by
  intro j
  induction j with
  | zero =>
    intro n w hn himg hf _ hbad
    cases n with
    | zero => omega
    | succ m =>
      have h1 := createServer_fail cfg w img f himg hf (by simpa using hbad)
      show (match createServer cfg w with
        | (.ok _, w') => createLoop cfg m w'
        | (.error e, w') => (.error e, w')) = _
      rw [h1, advance_zero]
  | succ j' ih =>
    intro n w hn himg hf hok hbad
    cases n with
    | zero => omega
    | succ m =>
      have h1 : createServer cfg w = (.ok (), advance cfg 1 w) :=
        createServer_ok cfg w img f himg hf (by simpa using hok 0 (by omega))
      show (match createServer cfg w with
        | (.ok _, w') => createLoop cfg m w'
        | (.error e, w') => (.error e, w')) = _
      rw [h1]
      have h2 := ih m (advance cfg 1 w) (by omega) himg hf
        (by
          intro k hk
          show w.createOk (w.createCount + 1 + k) = true
          have := hok (k + 1) (by omega)
          convert this using 2
          omega)
        (by
          show w.createOk (w.createCount + 1 + j') = false
          convert hbad using 2
          omega)
      show createLoop cfg m (advance cfg 1 w) = _
      rw [h2, advance_advance, Nat.add_comm 1 j']

theorem createLoop_ok_inv (cfg : NGConfig) :
    ∀ (n : Nat) (w w' : World) (u : Unit),
    createLoop cfg n w = (.ok u, w') → w' = advance cfg n w := by
  intro n
  induction n with
  | zero =>
    intro w w' u h
    rw [advance_zero]
    exact ((Prod.mk.injEq _ _ _ _).mp h).2.symm
  | succ m ih =>
    intro w w' u h
    rw [show createLoop cfg (m + 1) w = (match createServer cfg w with
      | (.ok _, w₁) => createLoop cfg m w₁
      | (.error e, w₁) => (.error e, w₁)) from rfl] at h
    cases hc : createServer cfg w with
    | mk r w₁ =>
      rw [hc] at h
      cases r with
      | error e => simp at h
      | ok v =>
        have hw₁ : w₁ = advance cfg 1 w := createServer_ok_inv cfg w w₁ v hc
        have := ih w₁ w' u h
        rw [this, hw₁, advance_advance, Nat.add_comm 1 m]

/-! ### targetSize behaviour -/

theorem targetSize_listOk (cfg : NGConfig) (w : World) (t : Nat)
    (h : targetSize cfg w = .ok t) : w.listOk = true := by
  by_cases hl : w.listOk = true
  · exact hl
  · simp only [Bool.not_eq_true] at hl
    unfold targetSize getInstances at h
    rw [if_neg (by simp [hl])] at h
    simp at h

theorem targetSize_count (cfg : NGConfig) (w : World) (h : w.listOk = true) :
    targetSize cfg w =
      .ok (w.servers.countP fun s => containsNode cfg.id s && isActiveOrBuild s) := by
  unfold targetSize getInstances
  rw [if_pos h]
  show Except.ok (List.countP _ (List.filter _ _)) = _
  rw [List.countP_filter]
  congr 1
  apply List.countP_congr
  intro s _
  constructor
  · intro hs
    simp only [Bool.and_eq_true] at hs ⊢
    exact ⟨hs.2, hs.1⟩
  · intro hs
    simp only [Bool.and_eq_true] at hs ⊢
    exact ⟨hs.2, hs.1⟩

theorem countP_newServers (cfg : NGConfig) :
    ∀ (n c : Nat),
      (newServers cfg c n).countP (fun s => containsNode cfg.id s && isActiveOrBuild s) = n := by
  intro n
  induction n with
  | zero => intro c; simp [newServers]
  | succ m ih =>
    intro c
    show List.countP _ (mkServer cfg c :: newServers cfg (c + 1) m) = m + 1
    rw [List.countP_cons_of_pos, ih]
    simp [containsNode_mkServer, isActiveOrBuild_mkServer]

theorem targetSize_advance (cfg : NGConfig) (n : Nat) (w : World) (t : Nat)
    (h : targetSize cfg w = .ok t) :
    targetSize cfg (advance cfg n w) = .ok (t + n) := by
  have hl : w.listOk = true := targetSize_listOk cfg w t h
  have hl' : (advance cfg n w).listOk = true := hl
  rw [targetSize_count cfg w hl] at h
  have ht : t = w.servers.countP fun s => containsNode cfg.id s && isActiveOrBuild s := by
    have := (Except.ok.injEq _ _).mp h
    omega
  rw [targetSize_count cfg (advance cfg n w) hl']
  show Except.ok (List.countP _ ((advance cfg n w).servers)) = _
  have hs : (advance cfg n w).servers = w.servers ++ newServers cfg w.createCount n := rfl
  rw [hs, List.countP_append, countP_newServers, ht]

theorem targetSize_listFail (cfg : NGConfig) (w : World) (h : w.listOk = false) :
    targetSize cfg w = .error .backendUnavailable := by
  unfold targetSize getInstances
  rw [if_neg (by simp [h])]

/-! ### increaseSize / decreaseTargetSize behaviour -/

theorem increaseSize_nonpos (cfg : NGConfig) (delta : Int) (w : World) (h : delta ≤ 0) :
    increaseSize cfg delta w = (.error .invalidArgument, w) := by
  unfold increaseSize
  rw [if_pos h]

theorem increaseSize_capacity (cfg : NGConfig) (delta : Int) (w : World) (t : Nat)
    (hd : 0 < delta) (ht : targetSize cfg w = .ok t)
    (hcap : (t : Int) + delta > cfg.maxSize) :
    increaseSize cfg delta w = (.error .capacityExceeded, w) := by
  unfold increaseSize
  rw [if_neg (by omega), ht]
  show (if (t : Int) + delta > cfg.maxSize then _ else _) = _
  rw [if_pos hcap]

theorem increaseSize_run (cfg : NGConfig) (delta : Int) (w : World) (t : Nat)
    (hd : 0 < delta) (ht : targetSize cfg w = .ok t)
    (hcap : (t : Int) + delta ≤ cfg.maxSize) :
    increaseSize cfg delta w = createLoop cfg delta.toNat w := by
  unfold increaseSize
  rw [if_neg (by omega), ht]
  show (if (t : Int) + delta > cfg.maxSize then _ else _) = _
  rw [if_neg (by omega)]

theorem increaseSize_ok_inv (cfg : NGConfig) (delta : Int) (w w' : World) (u : Unit)
    (h : increaseSize cfg delta w = (.ok u, w')) :
    0 < delta ∧ ∃ t : Nat, targetSize cfg w = .ok t ∧
      (t : Int) + delta ≤ cfg.maxSize ∧ w' = advance cfg delta.toNat w := by
  by_cases hd : delta ≤ 0
  · rw [increaseSize_nonpos cfg delta w hd] at h
    simp at h
  · have hd' : 0 < delta := by omega
    cases ht : targetSize cfg w with
    | error e =>
      unfold increaseSize at h
      rw [if_neg hd, ht] at h
      simp at h
    | ok t =>
      by_cases hcap : (t : Int) + delta > cfg.maxSize
      · rw [increaseSize_capacity cfg delta w t hd' ht hcap] at h
        simp at h
      · rw [increaseSize_run cfg delta w t hd' ht (by omega)] at h
        exact ⟨hd', t, rfl, by omega, createLoop_ok_inv cfg delta.toNat w w' u h⟩

theorem decreaseTargetSize_snd (cfg : NGConfig) (delta : Int) (w : World) :
    (decreaseTargetSize cfg delta w).2 = w := by
  unfold decreaseTargetSize
  by_cases hd : (0 : Int) ≤ delta
  · rw [if_pos hd]
  · rw [if_neg hd]
    cases ht : targetSize cfg w with
    | error e => rfl
    | ok t =>
      show (if (t : Int) + delta < cfg.minSize then
        ((Except.error Err.capacityExceeded : Except Err Unit), w)
        else (Except.ok (), w)).2 = w
      split <;> rfl

theorem decreaseTargetSize_capacity (cfg : NGConfig) (delta : Int) (w : World) (t : Nat)
    (hd : delta < 0) (ht : targetSize cfg w = .ok t)
    (hl : (t : Int) + delta < cfg.minSize) :
    decreaseTargetSize cfg delta w = (.error .capacityExceeded, w) := by
  unfold decreaseTargetSize
  rw [if_neg (by omega), ht]
  show (if (t : Int) + delta < cfg.minSize then _ else _) = _
  rw [if_pos hl]

/-! ### deleteNode / deleteNodes behaviour -/

theorem deleteNode_bad (w : World) (n : NodeRef)
    (hbad : (goTrimStart n.providerID (ProviderName ++ "://") == n.providerID) = true) :
    deleteNode w n = (.error .invalidArgument, w) := by
  unfold deleteNode
  rw [if_pos hbad]

theorem deleteNodes_cons (w : World) (n : NodeRef) (rest : List NodeRef) :
    deleteNodes w (n :: rest) =
      match deleteNode w n with
      | (Except.ok _, w') => deleteNodes w' rest
      | (Except.error e, w') => (Except.error e, w') := rfl

theorem deleteNodes_append (w : World) (a b : List NodeRef) :
    deleteNodes w (a ++ b) =
      match deleteNodes w a with
      | (Except.ok _, w') => deleteNodes w' b
      | (Except.error e, w') => (Except.error e, w') := by
  induction a generalizing w with
  | nil => rfl
  | cons n rest ih =>
    rw [show (n :: rest) ++ b = n :: (rest ++ b) from rfl]
    rw [deleteNodes_cons w n (rest ++ b), deleteNodes_cons w n rest]
    cases hd : deleteNode w n with
    | mk r w' =>
      cases r with
      | ok v => exact ih w'
      | error e => rfl

/-! ### Claim theorems -/

/-- C1: for every node group and every delta > 0, if the current target size
plus delta exceeds maxSize, IncreaseSize fails with CapacityExceeded and
issues zero instance-creation calls (the world is untouched); otherwise it
issues the creation calls sequentially: when all `delta` creations succeed it
issues exactly `delta` calls and appends exactly `delta` servers, and when
creation `j` is the first to fail it stops there with the `j` already-created
servers remaining (and `j + 1` calls issued, the failing one included). -/
theorem C1_increase_size_spec (cfg : NGConfig) (delta : Int) (w : World) (t : Nat)
    (hd : 0 < delta) (ht : targetSize cfg w = .ok t) :
    ((t : Int) + delta > cfg.maxSize →
      increaseSize cfg delta w = (.error .capacityExceeded, w)) ∧
    ((t : Int) + delta ≤ cfg.maxSize →
      ∀ img f, getImageID cfg w = .ok img → getFlavor cfg w = .ok f →
        ((∀ k, k < delta.toNat → w.createOk (w.createCount + k) = true) →
          increaseSize cfg delta w = (.ok (), advance cfg delta.toNat w) ∧
          (advance cfg delta.toNat w).createCount = w.createCount + delta.toNat ∧
          (advance cfg delta.toNat w).servers =
            w.servers ++ newServers cfg w.createCount delta.toNat ∧
          (newServers cfg w.createCount delta.toNat).length = delta.toNat) ∧
        (∀ j, j < delta.toNat → (∀ k, k < j → w.createOk (w.createCount + k) = true) →
          w.createOk (w.createCount + j) = false →
          increaseSize cfg delta w =
            (.error .backendUnavailable, failedCreate (advance cfg j w)) ∧
          (failedCreate (advance cfg j w)).createCount = w.createCount + j + 1 ∧
          (failedCreate (advance cfg j w)).servers =
            w.servers ++ newServers cfg w.createCount j)) := by
  constructor
  · intro hcap
    exact increaseSize_capacity cfg delta w t hd ht hcap
  · intro hcap img f himg hf
    constructor
    · intro hok
      refine ⟨?_, rfl, rfl, length_newServers cfg delta.toNat w.createCount⟩
      rw [increaseSize_run cfg delta w t hd ht hcap]
      exact createLoop_ok cfg img f delta.toNat w himg hf hok
    · intro j hj hok hbad
      refine ⟨?_, rfl, rfl⟩
      rw [increaseSize_run cfg delta w t hd ht hcap]
      exact createLoop_fail cfg img f j delta.toNat w hj himg hf hok hbad

/-- C1 witness: on the healthy empty backend with bounds 1..5, a delta of 6
exceeds the maximum and IncreaseSize rejects it untouched. -/
theorem C1_increase_size_spec_witness :
    increaseSize cfgW 6 wW = (.error .capacityExceeded, wW) :=
  (C1_increase_size_spec cfgW 6 wW 0 (by decide) rfl).1 (by decide)

/-- C2 counterexample: the claimed invariant `minSize ≤ CurrentTargetSize() ≤
maxSize` after any successful IncreaseSize/DecreaseTargetSize sequence fails
on the code.  With bounds 4..5 and an empty backend, IncreaseSize(2) succeeds
(only the max bound is checked) and leaves target size 2 < 4; with bounds
1..2 and five running instances, DecreaseTargetSize(-1) succeeds without
changing anything and leaves target size 5 > 2. -/
theorem C2_bounds_counterexample :
    ((runOps cfgLow wW [Op.inc 2]).1 = .ok () ∧
      targetSize cfgLow (runOps cfgLow wW [Op.inc 2]).2 = .ok 2 ∧
      ¬ (cfgLow.minSize ≤ (2 : Int))) ∧
    ((runOps cfgNarrow wBig [Op.dec (-1)]).1 = .ok () ∧
      targetSize cfgNarrow (runOps cfgNarrow wBig [Op.dec (-1)]).2 = .ok 5 ∧
      ¬ ((5 : Int) ≤ cfgNarrow.maxSize)) :=
  ⟨⟨rfl, rfl, by decide⟩, ⟨rfl, rfl, by decide⟩⟩

/-- C2 (amended): if `minSize ≤ CurrentTargetSize() ≤ maxSize` holds before,
then it still holds after any successful sequence of IncreaseSize and
DecreaseTargetSize operations (IncreaseSize rejects requests that would
exceed maxSize before taking effect, DecreaseTargetSize rejects requests
that would fall below minSize and changes nothing). -/
theorem C2_bounds_preserved (cfg : NGConfig) (ops : List Op) :
    ∀ (w : World) (t : Nat), targetSize cfg w = .ok t →
    cfg.minSize ≤ (t : Int) → (t : Int) ≤ cfg.maxSize →
    (runOps cfg w ops).1 = .ok () →
    ∃ t' : Nat, targetSize cfg (runOps cfg w ops).2 = .ok t' ∧
      cfg.minSize ≤ (t' : Int) ∧ (t' : Int) ≤ cfg.maxSize := by
  induction ops with
  | nil => intro w t ht hmin hmax _; exact ⟨t, ht, hmin, hmax⟩
  | cons op rest ih =>
    intro w t ht hmin hmax hrun
    cases op with
    | inc d =>
      cases hstep : increaseSize cfg d w with
      | mk r w₁ =>
        have hred : runOps cfg w (Op.inc d :: rest) =
            (match increaseSize cfg d w with
              | (Except.ok _, w') => runOps cfg w' rest
              | (Except.error e, w') => (Except.error e, w')) := rfl
        rw [hred, hstep] at hrun ⊢
        cases r with
        | error e => simp at hrun
        | ok u =>
          obtain ⟨hd, t₀, ht₀, hcap, hw₁⟩ := increaseSize_ok_inv cfg d w w₁ u hstep
          rw [ht] at ht₀
          have htt : t₀ = t := by
            have := (Except.ok.injEq _ _).mp ht₀
            omega
          subst htt
          have ht₁ : targetSize cfg w₁ = .ok (t₀ + d.toNat) := by
            rw [hw₁]
            exact targetSize_advance cfg d.toNat w t₀ ht
          have hd' : ((d.toNat : Int)) = d := Int.toNat_of_nonneg (le_of_lt hd)
          apply ih w₁ (t₀ + d.toNat) ht₁
          · push_cast
            omega
          · push_cast
            omega
          · exact hrun
    | dec d =>
      cases hstep : decreaseTargetSize cfg d w with
      | mk r w₁ =>
        have hred : runOps cfg w (Op.dec d :: rest) =
            (match decreaseTargetSize cfg d w with
              | (Except.ok _, w') => runOps cfg w' rest
              | (Except.error e, w') => (Except.error e, w')) := rfl
        rw [hred, hstep] at hrun ⊢
        cases r with
        | error e => simp at hrun
        | ok u =>
          have hw₁ : w₁ = w := by
            have := decreaseTargetSize_snd cfg d w
            rw [hstep] at this
            exact this
          rw [hw₁] at hrun ⊢
          exact ih w t ht hmin hmax hrun

/-- C2 witness: starting from one running `g1` instance (target 1, within
bounds 1..5), a successful IncreaseSize(2) keeps the target inside the
bounds. -/
theorem C2_bounds_preserved_witness :
    ∃ t' : Nat, targetSize cfgW (runOps cfgW wOne [Op.inc 2]).2 = .ok t' ∧
      cfgW.minSize ≤ (t' : Int) ∧ (t' : Int) ≤ cfgW.maxSize :=
  C2_bounds_preserved cfgW [Op.inc 2] wOne 1 rfl (by decide) (by decide) rfl

/-- C3: DecreaseTargetSize with `current + delta < minSize` fails with
CapacityExceeded, and in all cases (success or failure, whatever the delta)
it returns the world unchanged: no instance-deletion call is issued and
backend state is untouched. -/
theorem C3_decrease_no_delete (cfg : NGConfig) (delta : Int) (w : World) :
    (∀ t : Nat, delta < 0 → targetSize cfg w = .ok t →
      (t : Int) + delta < cfg.minSize →
      (decreaseTargetSize cfg delta w).1 = .error .capacityExceeded) ∧
    (decreaseTargetSize cfg delta w).2 = w := by
  constructor
  · intro t hd ht hl
    rw [decreaseTargetSize_capacity cfg delta w t hd ht hl]
  · exact decreaseTargetSize_snd cfg delta w

/-- C3 witness: on the empty backend with minSize 1, DecreaseTargetSize(-1)
is rejected with CapacityExceeded and the world is unchanged. -/
theorem C3_decrease_no_delete_witness :
    (decreaseTargetSize cfgW (-1) wW).1 = .error .capacityExceeded ∧
    (decreaseTargetSize cfgW (-1) wW).2 = wW :=
  ⟨(C3_decrease_no_delete cfgW (-1) wW).1 0 (by decide) rfl (by decide),
   (C3_decrease_no_delete cfgW (-1) wW).2⟩

/-- C4: ContainsNode attributes an instance to a group exactly when the
`nodegroup` metadata tag equals the group id, or the tag is absent and the
group id occurs in the instance name; in particular the tagged instance
named `random-42` and the untagged `g1-worker-07` belong to `g1`, while the
untagged `other-3` does not. -/
theorem C4_attribution :
    (∀ (ngId : String) (s : Server),
      containsNode ngId s = true ↔
        (mapGet s.metadata "nodegroup" = some ngId ∨
          (mapGet s.metadata "nodegroup" = none ∧ goContains s.name ngId = true))) ∧
    containsNode "g1" srvTagged = true ∧
    containsNode "g1" srvNamed = true ∧
    containsNode "g1" srvOther = false := by
  refine ⟨?_, rfl, rfl, rfl⟩
  intro ngId s
  unfold containsNode
  cases h : mapGet s.metadata "nodegroup" with
  | none => simp [h]
  | some tag => simp [h, beq_iff_eq]

/-- C4 witness: the tagged scenario instance is attributed via the metadata
rule. -/
theorem C4_attribution_witness : containsNode "g1" srvTagged = true :=
  (C4_attribution.1 "g1" srvTagged).mpr (Or.inl (by decide))

/-- C5: an instance reference whose provider-qualified id lacks the
`openstack://` prefix makes deleteNode fail with InvalidArgument without
touching the world (no backend delete call for it), and makes the whole
DeleteNodes operation fail with InvalidArgument with the world exactly as it
was after the preceding (well-formed, successfully deleted) references —
so no delete call is ever issued for the malformed reference, and nothing
after it is processed. -/
theorem C5_delete_invalid_prefix (w : World) (pre post : List NodeRef) (n : NodeRef)
    (hbad : (goTrimStart n.providerID (ProviderName ++ "://") == n.providerID) = true)
    (hpre : (deleteNodes w pre).1 = .ok ()) :
    deleteNode (deleteNodes w pre).2 n = (.error .invalidArgument, (deleteNodes w pre).2) ∧
    deleteNodes w (pre ++ n :: post) = (.error .invalidArgument, (deleteNodes w pre).2) := by
  have hstep : deleteNode (deleteNodes w pre).2 n =
      (.error .invalidArgument, (deleteNodes w pre).2) :=
    deleteNode_bad (deleteNodes w pre).2 n hbad
  refine ⟨hstep, ?_⟩
  rw [deleteNodes_append w pre (n :: post)]
  have hpair : deleteNodes w pre = (.ok (), (deleteNodes w pre).2) := by
    have : deleteNodes w pre = ((deleteNodes w pre).1, (deleteNodes w pre).2) := rfl
    rw [this, hpre]
  rw [hpair]
  show deleteNodes (deleteNodes w pre).2 (n :: post) = _
  rw [deleteNodes_cons, hstep]

/-- C5 witness: deleting a well-formed reference then a malformed one fails
with InvalidArgument, with the world exactly as after the first delete. -/
theorem C5_delete_invalid_prefix_witness :
    deleteNode (deleteNodes wOne [goodRef]).2 badRef =
      (.error .invalidArgument, (deleteNodes wOne [goodRef]).2) ∧
    deleteNodes wOne ([goodRef] ++ badRef :: []) =
      (.error .invalidArgument, (deleteNodes wOne [goodRef]).2) :=
  C5_delete_invalid_prefix wOne [goodRef] [] badRef (by decide) rfl

/-- C6: on a duplicate-free directory, a second AddNodeGroup with the same id
returns the very group the first call returned, leaves the directory
untouched, and the directory holds exactly one entry for that id. -/
theorem C6_add_node_group_idempotent (p : Directory) (cfg cfg2 g1 : NGConfig)
    (p1 : Directory) (hu : dirUnique p) (hid : cfg2.id = cfg.id)
    (h1 : addNodeGroup p cfg = (.ok g1, p1)) :
    addNodeGroup p1 cfg2 = (.ok g1, p1) ∧
    p1.countP (fun c => c.id == cfg.id) = 1 := by
  unfold addNodeGroup at h1 ⊢
  cases hf : List.find? (fun c => c.id == cfg.id) p with
  | some e =>
    rw [hf] at h1
    have hg : e = g1 ∧ p = p1 := by
      have := (Prod.mk.injEq _ _ _ _).mp h1
      exact ⟨(Except.ok.injEq _ _).mp this.1, this.2⟩
    obtain ⟨hg1, hp1⟩ := hg
    subst hg1
    subst hp1
    simp only [hid]
    rw [hf]
    refine ⟨rfl, ?_⟩
    have hmem : e ∈ p := List.mem_of_find?_eq_some hf
    have hpe := List.find?_some hf
    have hpos : 0 < p.countP (fun c => c.id == cfg.id) :=
      List.countP_pos_iff.mpr ⟨e, hmem, hpe⟩
    have := hu cfg.id
    omega
  | none =>
    rw [hf] at h1
    by_cases hv : validateConfig cfg = true
    · rw [if_pos hv] at h1
      have hg : cfg = g1 ∧ p ++ [cfg] = p1 := by
        have := (Prod.mk.injEq _ _ _ _).mp h1
        exact ⟨(Except.ok.injEq _ _).mp this.1, this.2⟩
      obtain ⟨hg1, hp1⟩ := hg
      subst hg1
      subst hp1
      simp only [hid]
      rw [List.find?_append, hf]
      have hself : List.find? (fun c => c.id == cfg.id) [cfg] = some cfg := by
        simp [List.find?]
      rw [Option.none_or, hself]
      refine ⟨rfl, ?_⟩
      rw [List.countP_append]
      have hz : p.countP (fun c => c.id == cfg.id) = 0 := by
        rw [List.countP_eq_zero]
        exact List.find?_eq_none.mp hf
      have ho : List.countP (fun c => c.id == cfg.id) [cfg] = 1 := by
        simp [List.countP, List.countP.go]
      omega
    · rw [if_neg hv] at h1
      simp at h1

/-- C6 witness: adding `g1` to the empty directory and then adding it again
returns the same group and keeps a single entry. -/
theorem C6_add_node_group_idempotent_witness :
    addNodeGroup [cfgW] cfgW = (.ok cfgW, [cfgW]) ∧
    List.countP (fun c => c.id == cfgW.id) [cfgW] = 1 :=
  C6_add_node_group_idempotent [] cfgW cfgW cfgW [cfgW]
    (fun i => by simp [List.countP, List.countP.go]) rfl rfl

/-- C7 counterexample: the claim says the GroupForInstance protocol
operation fails with InvalidArgument on a malformed provider-qualified id
rather than returning a successful response.  On the code, the provider-level
lookup does fail with InvalidArgument, but the protocol handler swallows the
error and answers with a successful empty-group ("not managed") response. -/
theorem C7_swallowed_error_counterexample :
    providerNodeGroupForNode [cfgW] wW badRef.providerID = .error .invalidArgument ∧
    grpcNodeGroupForNode [cfgW] wW (some badRef) = .ok none ∧
    (Except.ok none : Except GrpcCode (Option String)) ≠ .error .invalidArgument :=
  ⟨rfl, rfl, fun h => nomatch h⟩

/-- C7 (amended): for the protocol operations that delegate to the Provider
or a Node Group, a missing group yields NotFound, a nil node in the
GroupForInstance request yields InvalidArgument, and a backend or domain
failure in the size/scale/delete operations yields Internal; the
GroupForInstance protocol operation, however, catches a provider-level
failure (malformed id or failed instance fetch) and answers with a
successful empty-group ("not managed") response instead of an error. -/
theorem C7_error_mapping (p : Directory) (w : World) (id : String) (delta : Int)
    (nodes : List NodeRef) (node : NodeRef) :
    (getNodeGroup p id = none →
      grpcTargetSize p w id = .error .notFound ∧
      grpcIncreaseSize p w id delta = (.error .notFound, w) ∧
      grpcDecreaseTargetSize p w id delta = (.error .notFound, w) ∧
      grpcDeleteNodes p w id nodes = (.error .notFound, w)) ∧
    grpcNodeGroupForNode p w none = .error .invalidArgument ∧
    (∀ ng, getNodeGroup p id = some ng → w.listOk = false →
      grpcTargetSize p w id = .error .internal) ∧
    (∀ ng e, getNodeGroup p id = some ng → (increaseSize ng delta w).1 = .error e →
      (grpcIncreaseSize p w id delta).1 = .error .internal) ∧
    (∀ ng e, getNodeGroup p id = some ng →
      (decreaseTargetSize ng delta w).1 = .error e →
      (grpcDecreaseTargetSize p w id delta).1 = .error .internal) ∧
    (∀ ng e, getNodeGroup p id = some ng → (deleteNodes w nodes).1 = .error e →
      (grpcDeleteNodes p w id nodes).1 = .error .internal) ∧
    (∀ e, providerNodeGroupForNode p w node.providerID = .error e →
      grpcNodeGroupForNode p w (some node) = .ok none) := by
  refine ⟨?_, rfl, ?_, ?_, ?_, ?_, ?_⟩
  · intro hng
    unfold grpcTargetSize grpcIncreaseSize grpcDecreaseTargetSize grpcDeleteNodes
    rw [hng]
    exact ⟨rfl, rfl, rfl, rfl⟩
  · intro ng hng hlist
    unfold grpcTargetSize
    rw [hng]
    show (match targetSize ng w with
      | Except.error _ => Except.error GrpcCode.internal
      | Except.ok size => Except.ok size) = Except.error GrpcCode.internal
    rw [targetSize_listFail ng w hlist]
  · intro ng e hng herr
    unfold grpcIncreaseSize
    rw [hng]
    show (match increaseSize ng delta w with
      | (Except.ok _, w') => ((Except.ok () : Except GrpcCode Unit), w')
      | (Except.error _, w') => (Except.error GrpcCode.internal, w')).1 =
        Except.error GrpcCode.internal
    have hpair : increaseSize ng delta w =
        (Except.error e, (increaseSize ng delta w).2) := Prod.ext herr rfl
    rw [hpair]
  · intro ng e hng herr
    unfold grpcDecreaseTargetSize
    rw [hng]
    show (match decreaseTargetSize ng delta w with
      | (Except.ok _, w') => ((Except.ok () : Except GrpcCode Unit), w')
      | (Except.error _, w') => (Except.error GrpcCode.internal, w')).1 =
        Except.error GrpcCode.internal
    have hpair : decreaseTargetSize ng delta w =
        (Except.error e, (decreaseTargetSize ng delta w).2) := Prod.ext herr rfl
    rw [hpair]
  · intro ng e hng herr
    unfold grpcDeleteNodes
    rw [hng]
    show (match deleteNodes w nodes with
      | (Except.ok _, w') => ((Except.ok () : Except GrpcCode Unit), w')
      | (Except.error _, w') => (Except.error GrpcCode.internal, w')).1 =
        Except.error GrpcCode.internal
    have hpair : deleteNodes w nodes =
        (Except.error e, (deleteNodes w nodes).2) := Prod.ext herr rfl
    rw [hpair]
  · intro e herr
    unfold grpcNodeGroupForNode
    show (match providerNodeGroupForNode p w node.providerID with
      | Except.error _ => (Except.ok none : Except GrpcCode (Option String))
      | Except.ok none => Except.ok none
      | Except.ok (some ng) => Except.ok (some ng.id)) = Except.ok none
    rw [herr]

/-- C7 witness: an unknown group id is answered with NotFound by every
group-addressed protocol operation. -/
theorem C7_error_mapping_witness :
    grpcTargetSize [] wW "ghost" = .error .notFound ∧
    grpcIncreaseSize [] wW "ghost" 1 = (.error .notFound, wW) ∧
    grpcDecreaseTargetSize [] wW "ghost" 1 = (.error .notFound, wW) ∧
    grpcDeleteNodes [] wW "ghost" [] = (.error .notFound, wW) :=
  (C7_error_mapping [] wW "ghost" 1 [] goodRef).1 rfl

/-- C8: CurrentTargetSize() equals the number of servers attributed to the
group whose status is ACTIVE or BUILD, and it fails with BackendUnavailable
exactly when the backend list call fails.  `targetSize` is a pure function
of the world (it returns no updated world), so computing it mutates no
state. -/
theorem C8_target_size_count (cfg : NGConfig) (w : World) :
    (w.listOk = true →
      targetSize cfg w =
        .ok (w.servers.countP fun s => containsNode cfg.id s && isActiveOrBuild s)) ∧
    (w.listOk = false → targetSize cfg w = .error .backendUnavailable) :=
  ⟨fun h => targetSize_count cfg w h, fun h => targetSize_listFail cfg w h⟩

/-- C8 witness: on the backend with five running `g1` servers, the target
size is the attributed active/provisioning count. -/
theorem C8_target_size_count_witness :
    targetSize cfgW wBig =
      .ok (wBig.servers.countP fun s => containsNode cfgW.id s && isActiveOrBuild s) :=
  (C8_target_size_count cfgW wBig).1 rfl

/-- C9: a cold TemplateNodeInfo call resolves the flavor (exactly one
machine-type lookup), caches the built template with the current time, and
returns it; a second call within the 10-minute window returns the identical
template with no further lookup and leaves the cache untouched; a call after
the window expires, or after Refresh() has cleared the cache, performs
exactly one fresh lookup and returns the same data.  Returned values are
immutable in this embedding (the code's DeepCopy embeds as the identity), so
callers cannot mutate the cached template. -/
theorem C9_template_cache (cfg : NGConfig) (w : World) (f : Flavor) (t2 t3 : Nat)
    (hf : getFlavor cfg w = .ok f) :
    templateNodeInfo cfg { template := none, lastRefresh := 0 } w =
      (.ok (buildNode cfg f),
        { template := some (buildNode cfg f), lastRefresh := w.now },
        bumpFlavorLookups w) ∧
    (t2 - w.now < freshnessWindow →
      templateNodeInfo cfg { template := some (buildNode cfg f), lastRefresh := w.now }
          (setNow (bumpFlavorLookups w) t2) =
        (.ok (buildNode cfg f),
          { template := some (buildNode cfg f), lastRefresh := w.now },
          setNow (bumpFlavorLookups w) t2)) ∧
    (freshnessWindow ≤ t3 - w.now →
      templateNodeInfo cfg { template := some (buildNode cfg f), lastRefresh := w.now }
          (setNow (bumpFlavorLookups w) t3) =
        (.ok (buildNode cfg f),
          { template := some (buildNode cfg f), lastRefresh := t3 },
          bumpFlavorLookups (setNow (bumpFlavorLookups w) t3))) ∧
    templateNodeInfo cfg refreshNG (setNow (bumpFlavorLookups w) t2) =
      (.ok (buildNode cfg f),
        { template := some (buildNode cfg f), lastRefresh := t2 },
        bumpFlavorLookups (setNow (bumpFlavorLookups w) t2)) := by
  refine ⟨?_, ?_, ?_, ?_⟩
  · show templateNodeInfo.templateMiss cfg { template := none, lastRefresh := 0 } w = _
    unfold templateNodeInfo.templateMiss
    rw [hf]
    rfl
  · intro ht2
    show (if t2 - w.now < freshnessWindow then
        ((Except.ok (buildNode cfg f) : Except Err NodeInfo),
          ({ template := some (buildNode cfg f), lastRefresh := w.now } : NGState),
          setNow (bumpFlavorLookups w) t2)
      else templateNodeInfo.templateMiss cfg
        { template := some (buildNode cfg f), lastRefresh := w.now }
        (setNow (bumpFlavorLookups w) t2)) = _
    rw [if_pos ht2]
  · intro ht3
    show (if t3 - w.now < freshnessWindow then
        ((Except.ok (buildNode cfg f) : Except Err NodeInfo),
          ({ template := some (buildNode cfg f), lastRefresh := w.now } : NGState),
          setNow (bumpFlavorLookups w) t3)
      else templateNodeInfo.templateMiss cfg
        { template := some (buildNode cfg f), lastRefresh := w.now }
        (setNow (bumpFlavorLookups w) t3)) = _
    rw [if_neg (by omega)]
    unfold templateNodeInfo.templateMiss
    have hf' : getFlavor cfg (setNow (bumpFlavorLookups w) t3) = .ok f := hf
    rw [hf']
    rfl
  · show templateNodeInfo.templateMiss cfg refreshNG (setNow (bumpFlavorLookups w) t2) = _
    unfold templateNodeInfo.templateMiss
    have hf' : getFlavor cfg (setNow (bumpFlavorLookups w) t2) = .ok f := hf
    rw [hf']
    rfl

/-- C9 witness: on the healthy backend the cold call builds and caches the
template with one lookup, and a call 100 seconds later serves the cache. -/
theorem C9_template_cache_witness :
    templateNodeInfo cfgW { template := none, lastRefresh := 0 } wW =
      (.ok (buildNode cfgW fW),
        { template := some (buildNode cfgW fW), lastRefresh := 1000 },
        bumpFlavorLookups wW) ∧
    templateNodeInfo cfgW { template := some (buildNode cfgW fW), lastRefresh := 1000 }
        (setNow (bumpFlavorLookups wW) 1100) =
      (.ok (buildNode cfgW fW),
        { template := some (buildNode cfgW fW), lastRefresh := 1000 },
        setNow (bumpFlavorLookups wW) 1100) :=
  ⟨(C9_template_cache cfgW wW fW 1100 1700 rfl).1,
   (C9_template_cache cfgW wW fW 1100 1700 rfl).2.1 (by decide)⟩

/-- C10: every server created by a successful IncreaseSize carries the
metadata key `nodegroup` set to the creating group's id, has a name starting
with that id, and is therefore attributed back to the group by ContainsNode
via the metadata-tag rule; the pre-existing servers are untouched. -/
theorem C10_created_attributed (cfg : NGConfig) (delta : Int) (w : World) (u : Unit)
    (h : (increaseSize cfg delta w).1 = .ok u) :
    ((increaseSize cfg delta w).2).servers.take w.servers.length = w.servers ∧
    ∀ s ∈ ((increaseSize cfg delta w).2).servers.drop w.servers.length,
      mapGet s.metadata "nodegroup" = some cfg.id ∧
      goStartsWith cfg.id.toList s.name.toList = true ∧
      containsNode cfg.id s = true := by
  have hpair : increaseSize cfg delta w =
      (Except.ok u, (increaseSize cfg delta w).2) := Prod.ext h rfl
  obtain ⟨hd, t, ht, hcap, hw⟩ :=
    increaseSize_ok_inv cfg delta w (increaseSize cfg delta w).2 u hpair
  rw [hw]
  have hs : (advance cfg delta.toNat w).servers =
      w.servers ++ newServers cfg w.createCount delta.toNat := rfl
  rw [hs]
  constructor
  · exact List.take_left w.servers _
  · rw [List.drop_left]
    intro s hsmem
    obtain ⟨k, hk⟩ := mem_newServers cfg delta.toNat w.createCount s hsmem
    subst hk
    exact ⟨mkServer_nodegroup cfg k, mkServer_name_startsWith cfg k,
      containsNode_mkServer cfg k⟩

/-- C10 witness: the first server a successful IncreaseSize(2) creates on
the healthy empty backend carries the `g1` tag, a `g1`-prefixed name, and is
attributed back to `g1`. -/
theorem C10_created_attributed_witness :
    mapGet (mkServer cfgW 0).metadata "nodegroup" = some cfgW.id ∧
    goStartsWith cfgW.id.toList (mkServer cfgW 0).name.toList = true ∧
    containsNode cfgW.id (mkServer cfgW 0) = true :=
  (C10_created_attributed cfgW 2 wW () rfl).2 (mkServer cfgW 0) (by decide)

end OSAutoscaler
